import Mathlib

/-!
Shallow embedding of `src/toil_lib/pipelineWrapperBuilder.py` (class
`PipelineWrapperBuilder`), a wrapper that resolves a docker host mount,
writes a config file, spawns the pipeline engine as a subprocess, and
cleans up afterwards.

The filesystem / process environment is modelled explicitly: the result of
`docker ps` / `docker inspect`, whether the working directory exists, the
exit codes of the spawned subprocesses and the `os.stat` owner of the mount
are inputs, and the side effects performed by `run` are recorded as an
ordered trace of events.
-/

set_option autoImplicit false

namespace ToilLib

/-- A docker mount as returned by `docker inspect` (fields `Source` and
`Destination` of the `Mounts` array). -/
structure Mount where
  source : String
  destination : String
deriving DecidableEq, Repr

/-- Python exceptions that can escape the wrapper's code. -/
inductive PyError where
  | runtimeError (msg : String)
  | userError (msg : String)
  | calledProcessError (cmd : List String)
  | indexError
deriving DecidableEq, Repr

/-- Whether `pat` occurs as a contiguous sublist of the second list. -/
def listContainsSub (pat : List Char) : List Char → Bool
  | [] => pat.isPrefixOf ([] : List Char)
  | c :: rest => pat.isPrefixOf (c :: rest) || listContainsSub pat rest

/-- `'docker.sock' in s` — Python substring membership used by
`_prepare_mount` to classify a mount source as the docker socket. -/
def containsSock (s : String) : Bool :=
  listContainsSub "docker.sock".data s.data

/-- A mount is a socket mount when `docker.sock` occurs in its `Source`
(the filter `'docker.sock' in x['Source']` of `_prepare_mount`). -/
def isSock (x : Mount) : Bool := containsSock x.source

/-- A mount is "mirrored" when its `Source` equals its `Destination`
(the comparison `x['Source'] == x['Destination']` of `_prepare_mount`). -/
def isMirror (x : Mount) : Bool := x.source == x.destination

/-- The mirrored non-socket mounts of an inspection result. -/
def mirrorNonSock (mounts : List Mount) : List Mount :=
  mounts.filter fun x => isMirror x && !isSock x

/-- Modelled from the spec: `require` is imported from the `toil_lib`
package, whose source is not part of this repository. Per the spec it
checks a condition and "fails with a configuration error" carrying the
given message when the condition does not hold. -/
def require (cond : Bool) (msg : String) : Except PyError Unit :=
  if cond then .ok () else .error (.userError msg)

@[simp] theorem require_true (msg : String) : require true msg = .ok () := rfl

@[simp] theorem require_false (msg : String) :
    require false msg = .error (.userError msg) := rfl

/-- `PipelineWrapperBuilder._prepare_mount`. `psOk` is whether the
`docker ps` subprocess succeeds; `mounts` is the `Mounts` array obtained
from `docker inspect` on the first listed container. -/
def prepare_mount (psOk : Bool) (mounts : List Mount) : Except PyError String :=
  if psOk = false then
    .error (.runtimeError ("No container detected, ensure Docker is being run with: " ++
      "-v /var/run/docker.sock:/var/run/docker.sock as an argument."))
  else
    let sock_mnt := (mounts.filter isSock).map isMirror
    match require (sock_mnt.length == 1)
        ("Missing socket mount. Requires the following: " ++
         "docker run -v /var/run/docker.sock:/var/run/docker.sock") with
    | .error e => .error e
    | .ok _ =>
      if mounts.length == 2 then
        match require (mounts.all isMirror)
            ("Docker Src/Dst mount points, invoked with the -v argument, " ++
             "must be the same if only using one mount point aside from the docker socket.") with
        | .error e => .error e
        | .ok _ =>
          match (mounts.filter fun x => !isSock x).map (fun x => x.source) with
          | m :: _ => .ok m
          | [] => .error .indexError
      else
        let mirror_mounts := (mounts.filter isMirror).map fun x => x.source
        let work_mount := mirror_mounts.filter fun s => !containsSock s
        match require (work_mount.length == 1)
            "Wrong number of mirror mounts provided, see documentation." with
        | .error e => .error e
        | .ok _ =>
          match work_mount with
          | m :: _ => .ok m
          | [] => .error .indexError

/-- `s.startswith(pre)` over the underlying character lists. -/
def strStartsWith (s pre : String) : Bool :=
  pre.data.isPrefixOf s.data

/-- `s.endswith(suf)` over the underlying character lists. -/
def strEndsWith (s suf : String) : Bool :=
  suf.data.reverse.isPrefixOf s.data.reverse

/-- `os.path.join` for two components (the only arity the source uses). -/
def ospJoin (a b : String) : String :=
  if strStartsWith b "/" then b
  else if a = "" || strEndsWith a "/" then a ++ b
  else a ++ "/" ++ b

/-- `str` of a Python boolean, as it appears under `str.format`. -/
def pyBool : Bool → String
  | true => "True"
  | false => "False"

/-- Python's longest common prefix of two strings (character-wise). -/
def commonPrefixAux : List Char → List Char → List Char
  | a :: as, b :: bs => if a = b then a :: commonPrefixAux as bs else []
  | _, _ => []

def commonPrefix (a b : String) : String :=
  String.mk (commonPrefixAux a.data b.data)

/-- Split a character list on a separator character. -/
def splitOnChar (sep : Char) : List Char → List (List Char)
  | [] => [[]]
  | c :: rest =>
    if c = sep then [] :: splitOnChar sep rest
    else
      match splitOnChar sep rest with
      | [] => [[c]]
      | l :: ls => (c :: l) :: ls

/-- Join a list of strings with a separator string. -/
def joinSep (sep : String) : List String → String
  | [] => ""
  | [x] => x
  | x :: xs => x ++ sep ++ joinSep sep xs

/-- A line consisting solely of spaces and tabs (or empty). -/
def blankLine (l : String) : Bool :=
  l.data.all fun c => c = ' ' || c = '\t'

/-- The leading whitespace of a line. -/
def leadingWS (l : String) : String :=
  String.mk (l.data.takeWhile fun c => c = ' ' || c = '\t')

/-- `textwrap.dedent`: strip the longest common leading whitespace of all
non-blank lines; whitespace-only lines are normalised to empty. -/
def dedent (text : String) : String :=
  let lines := (splitOnChar '\n' text.data).map String.mk
  let margin :=
    match (lines.filter fun l => !blankLine l).map leadingWS with
    | [] => ""
    | i :: is => is.foldl commonPrefix i
  joinSep "\n"
    (lines.map fun l =>
      if blankLine l then "" else String.mk (l.data.drop margin.data.length))

/-- Left-to-right, non-overlapping replacement of `pat` by `rep`,
structurally recursive on a fuel bound. -/
def replaceAux (pat rep : List Char) : Nat → List Char → List Char
  | 0, l => l
  | _ + 1, [] => []
  | fuel + 1, c :: rest =>
    if pat ≠ [] && pat.isPrefixOf (c :: rest) then
      rep ++ replaceAux pat rep fuel (List.drop (pat.length - 1) rest)
    else
      c :: replaceAux pat rep fuel rest

/-- `s.replace(pat, rep)` on strings. -/
def strReplace (s pat rep : String) : String :=
  String.mk (replaceAux pat.data rep.data (s.data.length + 1) s.data)

/-- `template.format(**dict)` for templates whose replacement fields are
plain argument names: each occurrence of a braced key is replaced by the
corresponding value. -/
def pyFormat (template : String) (dict : List (String × String)) : String :=
  dict.foldl (fun s p => strReplace s ("\x7b" ++ p.1 ++ "\x7d") p.2) template

/-- `d[k] = v` on an association list keeping first-set order. -/
def dictSet (d : List (String × String)) (k v : String) : List (String × String) :=
  if d.any fun p => p.1 == k then
    d.map fun p => if p.1 == k then (k, v) else p
  else d ++ [(k, v)]

/-- The parsed argument namespace: the two flags added by `get_args` plus
the remaining user-defined arguments as strings. -/
structure Args where
  no_clean : Bool
  resume : Bool
  extra : List (String × String)
deriving DecidableEq, Repr

/-- `vars(args)`: the namespace as a dict (values rendered as they appear
under `str.format`). -/
def varsDict (args : Args) : List (String × String) :=
  ("no_clean", pyBool args.no_clean) :: ("resume", pyBool args.resume) :: args.extra

/-- The instance state of a `PipelineWrapperBuilder`: the five fields set
by `__init__` plus the two fields assigned during `run`
(`self._mount`, `self._workdir`). -/
structure Wrapper where
  name : String
  desc : String
  config : String
  no_clean : Bool
  resume : Bool
  mount : Option String := none
  workdir : Option String := none
deriving DecidableEq, Repr

/-- `PipelineWrapperBuilder.__init__`. -/
def init (name desc config : String) (add_no_clean : Bool := true)
    (add_resume : Bool := true) : Wrapper :=
  { name := name, desc := desc, config := config,
    no_clean := add_no_clean, resume := add_resume }

/-- The OS environment a `run` invocation observes: the docker inspection
result, whether the derived working directory already exists, the owner of
the mount reported by `os.stat`, and the exit statuses of the two
`subprocess.check_call` invocations. -/
structure Env where
  psOk : Bool
  mounts : List Mount
  workdirExists : Bool
  pipelineExit : Nat
  statUid : Nat
  statGid : Nat
  chownExit : Nat
deriving DecidableEq, Repr

/-- An observable side effect of `run`, in program order. -/
inductive Event where
  | makedirs (path : String)
  | writeFile (path content : String)
  | checkCall (cmd : List String)
  | printStderr (msg : String)
  | rmtree (path : String)
deriving DecidableEq, Repr

/-- `str(e)` of a `subprocess.CalledProcessError`. -/
def cpeMessage (cmd : List String) (code : Nat) : String :=
  "Command " ++ joinSep " " cmd ++
    " returned non-zero exit status " ++ toString code

instance {ε α : Type} [DecidableEq ε] [DecidableEq α] : DecidableEq (Except ε α) := fun x y =>
  match x, y with
  | .ok a, .ok b =>
    if h : a = b then .isTrue (by rw [h]) else .isFalse (by simp [h])
  | .error a, .error b =>
    if h : a = b then .isTrue (by rw [h]) else .isFalse (by simp [h])
  | .ok _, .error _ => .isFalse (by simp)
  | .error _, .ok _ => .isFalse (by simp)

/-- The outcome of a `run` call: the ordered trace of side effects, the
exception it raises (if any), and the final instance state. -/
structure RunResult where
  trace : List Event
  outcome : Except PyError Unit
  state : Wrapper
deriving DecidableEq, Repr

/-- `PipelineWrapperBuilder._make_command_prefix`. -/
def make_command_prefix (self : Wrapper) (jobstore_path config_path workdir_path : String) :
    List String :=
  [self.name, "run", jobstore_path,
   "--config", config_path,
   "--workDir", workdir_path,
   "--retryCount", "1"]

/-- `PipelineWrapperBuilder._create_workdir`: returns the events performed
(just `os.makedirs` when the directory is created) or the `UserError`
raised when the directory exists and resume was not both enabled and
requested. -/
def create_workdir (self : Wrapper) (args : Args) (wdExists : Bool) :
    Except PyError (List Event) :=
  let wd := self.workdir.getD ""
  if wdExists then
    if self.resume && args.resume then
      .ok []
    else
      .error (.userError ("Temporary directory " ++ wd ++
        " already exists. Run with --resume option or remove directory."))
  else
    .ok [.makedirs wd]

/-- `PipelineWrapperBuilder.run`. Follows the source line by line:
resolve the mount, derive the workdir, interpolate and dedent the config
template (reassigning `self._config`), build the engine command, append
`--restart` when resume is enabled and requested, create or reuse the
workdir, write the config file, spawn the pipeline (a non-zero exit is
caught and printed to stderr), then in the `finally` block chown the mount
(a non-zero exit propagates) and remove the workdir unless `--no-clean`
was enabled and passed. -/
def run (self : Wrapper) (env : Env) (args : Args) (pipeline_command : List String) :
    RunResult :=
  match prepare_mount env.psOk env.mounts with
  | .error e => ⟨[], .error e, self⟩
  | .ok mount =>
    let self := { self with mount := some mount }
    let wd := ospJoin mount ("Toil-" ++ self.name)
    let self := { self with workdir := some wd }
    let args_dict := dictSet (varsDict args) "output_dir" mount
    let self := { self with config := dedent (pyFormat self.config args_dict) }
    let config_path := ospJoin wd "config"
    let command0 := make_command_prefix self (ospJoin wd "jobStore") config_path wd ++
      pipeline_command
    let command := if self.resume && args.resume then command0 ++ ["--restart"] else command0
    match create_workdir self args env.workdirExists with
    | .error e => ⟨[], .error e, self⟩
    | .ok evs =>
      let trace1 := evs ++ [.writeFile config_path self.config, .checkCall command]
      let trace2 := trace1 ++
        (if env.pipelineExit != 0 then
          [.printStderr (cpeMessage command env.pipelineExit)]
        else [])
      let chown_command := ["chown", "-R",
        toString env.statUid ++ ":" ++ toString env.statGid, mount]
      let trace3 := trace2 ++ [.checkCall chown_command]
      if env.chownExit != 0 then
        ⟨trace3, .error (.calledProcessError chown_command), self⟩
      else if self.no_clean && args.no_clean then
        ⟨trace3, .ok (), self⟩
      else
        ⟨trace3 ++ [.rmtree wd], .ok (), self⟩

/-! ### Helper lemmas and concrete fixtures -/

theorem require_ok {c : Bool} {msg : String} {u : Unit}
    (h : require c msg = .ok u) : c = true := by
  cases c with
  | true => rfl
  | false => exact Except.noConfusion h

theorem require_err {c : Bool} {msg : String} {e : PyError}
    (h : require c msg = .error e) : c = false := by
  cases c with
  | true => exact Except.noConfusion h
  | false => rfl

/-- The canonical valid inspection result: the mirrored socket mount plus
one mirrored data mount. -/
def goodMounts : List Mount :=
  [⟨"/var/run/docker.sock", "/var/run/docker.sock"⟩, ⟨"/data", "/data"⟩]

/-- An environment where everything succeeds and the workdir is fresh. -/
def goodEnv : Env :=
  { psOk := true, mounts := goodMounts, workdirExists := false,
    pipelineExit := 0, statUid := 501, statGid := 20, chownExit := 0 }

/-! ### Claims -/

/-- C2, counterexample: with resume enabled and requested and pipeline
command `["mypipe"]`, the spawned command has `--restart` *after* the
pipeline tokens (`command.append` runs after the concatenation), not
before them as the claim states. -/
theorem C2_counterexample :
    Event.checkCall ["wf", "run", "/data/Toil-wf/jobStore",
        "--config", "/data/Toil-wf/config", "--workDir", "/data/Toil-wf",
        "--retryCount", "1", "mypipe", "--restart"]
      ∈ (run (init "wf" "d" "cfg") goodEnv ⟨false, true, []⟩ ["mypipe"]).trace ∧
    Event.checkCall ["wf", "run", "/data/Toil-wf/jobStore",
        "--config", "/data/Toil-wf/config", "--workDir", "/data/Toil-wf",
        "--retryCount", "1", "--restart", "mypipe"]
      ∉ (run (init "wf" "d" "cfg") goodEnv ⟨false, true, []⟩ ["mypipe"]).trace := by
  decide

/-- C2, amended: when resume is enabled and requested, the spawned command
line is `<name> run <jobStore> --config <config> --workDir <workdir>
--retryCount 1` followed by the user pipeline command and then
`--restart` as final token. -/
theorem C2_amended (self : Wrapper) (env : Env) (args : Args) (pc : List String) (m : String)
    (hm : prepare_mount env.psOk env.mounts = .ok m)
    (hr : (self.resume && args.resume) = true) :
    Event.checkCall
      ( make_command_prefix self
        (ospJoin (ospJoin m ("Toil-" ++ self.name)) "jobStore")
        (ospJoin (ospJoin m ("Toil-" ++ self.name)) "config")
        (ospJoin m ("Toil-" ++ self.name)) ++ pc ++ ["--restart"])
      ∈ (run self env args pc).trace := by
  unfold run
  rw [hm]
  simp only [ make_command_prefix, hr, if_true]
  unfold create_workdir
  rcases env.workdirExists with _ | _ <;> simp [hr] <;> (repeat' split) <;> simp

/-- C2, witness for the amended theorem. -/
theorem C2_witness :
    Event.checkCall ["wf", "run", "/data/Toil-wf/jobStore",
        "--config", "/data/Toil-wf/config", "--workDir", "/data/Toil-wf",
        "--retryCount", "1", "mypipe", "--restart"]
      ∈ (run (init "wf" "d" "cfg") goodEnv ⟨false, true, []⟩ ["mypipe"]).trace :=
  C2_amended (init "wf" "d" "cfg") goodEnv ⟨false, true, []⟩ ["mypipe"] "/data"
    (by decide) (by decide)

/-- C5, counterexample: with three mounts, a unique socket-containing
mount that is *not* mirrored, and one mirrored non-socket mount, mount
resolution succeeds instead of raising a configuration error — the
mirrored-socket validation does not apply for every number of mounts. -/
theorem C5_counterexample :
    prepare_mount true
        [⟨"/var/run/docker.sock", "/sock"⟩, ⟨"/data", "/data"⟩, ⟨"/x", "/y"⟩]
      = .ok "/data" ∧
    isMirror ⟨"/var/run/docker.sock", "/sock"⟩ = false := by
  decide

/-- C5, amended: whenever mount resolution succeeds, exactly one inspected
mount contains `docker.sock` in its source; the requirement that all
mounts (hence the socket mount) be bind-mounted with identical source and
destination is enforced only when the inspection lists exactly two
mounts. -/
theorem C5_amended (psOk : Bool) (mounts : List Mount) (p : String)
    (h : prepare_mount psOk mounts = .ok p) :
    (mounts.filter isSock).length = 1 ∧
    (mounts.length = 2 → ∀ x ∈ mounts, isMirror x = true) := by
  rcases hps : psOk with _ | _
  · rw [hps] at h
    simp only [prepare_mount] at h
    exact Except.noConfusion h
  rw [hps] at h
  rcases hsock : ((mounts.filter isSock).map isMirror).length == 1 with _ | _
  · have hsock' : ¬(mounts.filter isSock).length = 1 := by simpa using hsock
    simp [prepare_mount, require, hsock'] at h
  have hs1 : (mounts.filter isSock).length = 1 := by
    simpa [List.length_map] using hsock
  refine ⟨hs1, fun hlen => ?_⟩
  rcases hall : mounts.all isMirror with _ | _
  · have hall' : ¬∀ x ∈ mounts, isMirror x = true := by
      rw [← List.all_eq_true]
      simp [hall]
    simp [prepare_mount, require, hs1, hlen, hall'] at h
  · simpa [List.all_eq_true] using hall

/-- C5, witness for the amended theorem. -/
theorem C5_witness :
    (goodMounts.filter isSock).length = 1 ∧
    (goodMounts.length = 2 → ∀ x ∈ goodMounts, isMirror x = true) :=
  C5_amended true goodMounts "/data" (by decide)

/-- C6, counterexample: `run` reassigns the config template field
(`self._config = textwrap.dedent(self._config.format(**args_dict))`), so
the fields set at construction are not all read-only: the final config
field differs from the constructed one. -/
theorem C6_counterexample :
    (run (init "wf" "d" "  cfg: \x7boutput_dir\x7d") goodEnv ⟨false, false, []⟩ []).state.config
      ≠ (init "wf" "d" "  cfg: \x7boutput_dir\x7d").config := by
  decide

/-- C6, amended: of the fields set at construction, the name, the
description and the two feature flags are never reassigned by `run`; the
config template field, however, is overwritten with its interpolated and
dedented value. -/
theorem C6_amended (self : Wrapper) (env : Env) (args : Args) (pc : List String) :
    (run self env args pc).state.name = self.name ∧
    (run self env args pc).state.desc = self.desc ∧
    (run self env args pc).state.no_clean = self.no_clean ∧
    (run self env args pc).state.resume = self.resume := by
  unfold run create_workdir
  (repeat' split) <;> (try simp) <;> (repeat' split) <;> simp

/-- C4: once the mount is resolved, an existing workdir is reused without
error when the resume feature is enabled and `--resume` was passed (no
`makedirs`, and the run completes normally); an existing workdir without
resume raises a `UserError`; a missing workdir is created. -/
theorem C4 (self : Wrapper) (env : Env) (args : Args) (pc : List String) (m : String)
    (hm : prepare_mount env.psOk env.mounts = .ok m)
    (hch : env.chownExit = 0) :
    ((env.workdirExists = true ∧ (self.resume && args.resume) = true) →
      (run self env args pc).outcome = .ok () ∧
      ∀ p, Event.makedirs p ∉ (run self env args pc).trace) ∧
    ((env.workdirExists = true ∧ (self.resume && args.resume) = false) →
      (run self env args pc).outcome = .error (.userError
        ("Temporary directory " ++ ospJoin m ("Toil-" ++ self.name) ++
         " already exists. Run with --resume option or remove directory."))) ∧
    (env.workdirExists = false →
      Event.makedirs (ospJoin m ("Toil-" ++ self.name)) ∈ (run self env args pc).trace) := by
  have hb : (env.chownExit != 0) = false := by simp [hch]
  unfold run create_workdir
  rw [hm]
  refine ⟨fun ⟨hw, hr⟩ => ?_, fun ⟨hw, hr⟩ => ?_, fun hw => ?_⟩
  · simp [hw, hr, hb] <;> (repeat' split) <;> simp
  · have hr' : ¬(self.resume = true ∧ args.resume = true) := by
      rw [← Bool.and_eq_true]
      simp [hr]
    simp [hw, hr']
  · simp [hw] <;> (repeat' split) <;> simp

/-- C4, witness. -/
theorem C4_witness :
    ((run (init "wf" "d" "cfg") { goodEnv with workdirExists := true } ⟨false, true, []⟩
        []).outcome = .ok () ∧
      ∀ p, Event.makedirs p ∉
        (run (init "wf" "d" "cfg") { goodEnv with workdirExists := true } ⟨false, true, []⟩
          []).trace) :=
  (C4 (init "wf" "d" "cfg") { goodEnv with workdirExists := true } ⟨false, true, []⟩ []
    "/data" (by decide) rfl).1 ⟨rfl, rfl⟩

/-- C7: a mount-resolution failure propagates out of `run` with an empty
effect trace (nothing spawned, no config written, no chown, no removal);
likewise an existing workdir without resume makes `run` raise with an
empty effect trace. -/
theorem C7 (self : Wrapper) (env : Env) (args : Args) (pc : List String) :
    (∀ e, prepare_mount env.psOk env.mounts = .error e →
      (run self env args pc).outcome = .error e ∧
      (run self env args pc).trace = []) ∧
    ((env.workdirExists = true ∧ (self.resume && args.resume) = false) →
      (∃ e, (run self env args pc).outcome = .error e) ∧
      (run self env args pc).trace = []) := by
  constructor
  · intro e he
    simp [run, he]
  · rintro ⟨hw, hr⟩
    have hr' : ¬(self.resume = true ∧ args.resume = true) := by
      rw [← Bool.and_eq_true]
      simp [hr]
    rcases hpm : prepare_mount env.psOk env.mounts with e | m
    · simp [run, hpm]
    · simp [run, create_workdir, hpm, hw, hr']

/-- C7, witness (mount-resolution failure: docker ps fails). -/
theorem C7_witness :
    (run (init "wf" "d" "cfg") { goodEnv with psOk := false } ⟨false, false, []⟩ []).outcome
        = .error (.runtimeError ("No container detected, ensure Docker is being run with: " ++
          "-v /var/run/docker.sock:/var/run/docker.sock as an argument.")) ∧
    (run (init "wf" "d" "cfg") { goodEnv with psOk := false } ⟨false, false, []⟩ []).trace
        = [] :=
  (C7 (init "wf" "d" "cfg") { goodEnv with psOk := false } ⟨false, false, []⟩ []).1 _
    (by decide)

/-- Whether an event is a write to standard error. -/
def isStderr : Event → Bool
  | .printStderr _ => true
  | _ => false

theorem exists_stderr_of_any {tr : List Event} (h : tr.any isStderr = true) :
    ∃ msg, Event.printStderr msg ∈ tr := by
  rcases List.any_eq_true.mp h with ⟨ev, hev, hq⟩
  cases ev with
  | printStderr msg => exact ⟨msg, hev⟩
  | makedirs p => simp [isStderr] at hq
  | writeFile p c => simp [isStderr] at hq
  | checkCall c => simp [isStderr] at hq
  | rmtree p => simp [isStderr] at hq

/-- C1: when the run reaches the subprocess and the pipeline child exits
non-zero (with the cleanup chown succeeding), the failure is printed to
standard error and not re-raised; the chown of the mount still runs, and
the workdir is still removed whenever cleanup was requested. -/
theorem C1 (self : Wrapper) (env : Env) (args : Args) (pc : List String) (m : String)
    (hm : prepare_mount env.psOk env.mounts = .ok m)
    (hwd : env.workdirExists = false ∨ (self.resume && args.resume) = true)
    (hp : env.pipelineExit ≠ 0)
    (hch : env.chownExit = 0) :
    (run self env args pc).outcome = .ok () ∧
    (∃ msg, Event.printStderr msg ∈ (run self env args pc).trace) ∧
    Event.checkCall ["chown", "-R", toString env.statUid ++ ":" ++ toString env.statGid, m]
      ∈ (run self env args pc).trace ∧
    ((self.no_clean && args.no_clean) = false →
      Event.rmtree (ospJoin m ("Toil-" ++ self.name)) ∈ (run self env args pc).trace) := by
  have hb : (env.chownExit != 0) = false := by simp [hch]
  have hp' : (env.pipelineExit != 0) = true := by simpa using hp
  have hwd' : env.workdirExists = false ∨ (self.resume = true ∧ args.resume = true) := by
    rcases hwd with h | h
    · exact Or.inl h
    · exact Or.inr (by simpa [Bool.and_eq_true] using h)
  refine ⟨?_, exists_stderr_of_any ?_, ?_, fun hnc => ?_⟩ <;>
  · unfold run create_workdir
    rw [hm]
    rcases hw : env.workdirExists with _ | _
    · simp [hw, hb, hp'] <;> (repeat' split) <;> simp_all [isStderr]
    · have hr : self.resume = true ∧ args.resume = true := by
        rcases hwd' with h | h
        · rw [hw] at h
          exact Bool.noConfusion h
        · exact h
      simp [hw, hr, hb, hp'] <;> (repeat' split) <;> simp_all [isStderr]

/-- C1, witness. -/
theorem C1_witness :
    (run (init "wf" "d" "cfg") { goodEnv with pipelineExit := 3 } ⟨false, false, []⟩
        ["p"]).outcome = .ok () ∧
    (∃ msg, Event.printStderr msg ∈
      (run (init "wf" "d" "cfg") { goodEnv with pipelineExit := 3 } ⟨false, false, []⟩
        ["p"]).trace) ∧
    Event.checkCall ["chown", "-R", "501:20", "/data"]
      ∈ (run (init "wf" "d" "cfg") { goodEnv with pipelineExit := 3 } ⟨false, false, []⟩
        ["p"]).trace ∧
    ((((init "wf" "d" "cfg").no_clean : Bool) && false) = false →
      Event.rmtree "/data/Toil-wf"
        ∈ (run (init "wf" "d" "cfg") { goodEnv with pipelineExit := 3 } ⟨false, false, []⟩
          ["p"]).trace) :=
  C1 (init "wf" "d" "cfg") { goodEnv with pipelineExit := 3 } ⟨false, false, []⟩ ["p"]
    "/data" (by decide) (Or.inl rfl) (by decide) rfl

/-- C8: every run that reaches the subprocess step has written the config
file at `<mount>/Toil-<name>/config` with the dedented interpolation of
the template over the parsed arguments extended with
`output_dir = <mount>`, and its working directory is `<mount>/Toil-<name>`. -/
theorem C8 (self : Wrapper) (env : Env) (args : Args) (pc : List String) (m : String)
    (hm : prepare_mount env.psOk env.mounts = .ok m)
    (hwd : env.workdirExists = false ∨ (self.resume && args.resume) = true) :
    Event.writeFile (ospJoin (ospJoin m ("Toil-" ++ self.name)) "config")
        (dedent (pyFormat self.config (dictSet (varsDict args) "output_dir" m)))
      ∈ (run self env args pc).trace ∧
    (run self env args pc).state.workdir = some (ospJoin m ("Toil-" ++ self.name)) := by
  have hwd' : env.workdirExists = false ∨ (self.resume = true ∧ args.resume = true) := by
    rcases hwd with h | h
    · exact Or.inl h
    · exact Or.inr (by simpa [Bool.and_eq_true] using h)
  constructor <;>
  · unfold run create_workdir
    rw [hm]
    rcases hw : env.workdirExists with _ | _
    · simp [hw] <;> (repeat' split) <;> simp_all
    · have hr : self.resume = true ∧ args.resume = true := by
        rcases hwd' with h | h
        · rw [hw] at h
          exact Bool.noConfusion h
        · exact h
      simp [hw, hr] <;> (repeat' split) <;> simp_all

/-- C8, witness. -/
theorem C8_witness :
    Event.writeFile (ospJoin (ospJoin "/data" ("Toil-" ++ (init "wf" "d" "cfg").name)) "config")
        (dedent (pyFormat (init "wf" "d" "cfg").config
          (dictSet (varsDict ⟨false, false, []⟩) "output_dir" "/data")))
      ∈ (run (init "wf" "d" "cfg") goodEnv ⟨false, false, []⟩ []).trace ∧
    (run (init "wf" "d" "cfg") goodEnv ⟨false, false, []⟩ []).state.workdir
      = some (ospJoin "/data" ("Toil-" ++ (init "wf" "d" "cfg").name)) :=
  C8 (init "wf" "d" "cfg") goodEnv ⟨false, false, []⟩ [] "/data" (by decide) (Or.inl rfl)

/-- C9: for every run that completes without raising, the removed paths
are exactly the working directory when cleanup was requested (no-clean
disabled or not passed), and nothing when `--no-clean` was enabled and
passed — no other path is ever removed. -/
theorem C9 (self : Wrapper) (env : Env) (args : Args) (pc : List String)
    (h : (run self env args pc).outcome = .ok ()) (p : String) :
    Event.rmtree p ∈ (run self env args pc).trace ↔
      ((self.no_clean && args.no_clean) = false ∧
       (run self env args pc).state.workdir = some p) := by
  rcases hpm : prepare_mount env.psOk env.mounts with e | m
  · simp [run, hpm] at h
  · unfold run create_workdir at h ⊢
    rw [hpm] at h ⊢
    rcases hw : env.workdirExists with _ | _ <;> rw [hw] at h <;>
      (repeat' split at h ⊢) <;> simp_all <;>
      (repeat' split) <;> simp_all <;> (try exact eq_comm)

/-- C9, witness. -/
theorem C9_witness :
    Event.rmtree "/data/Toil-wf"
      ∈ (run (init "wf" "d" "cfg") goodEnv ⟨false, false, []⟩ []).trace ↔
      ((((init "wf" "d" "cfg").no_clean : Bool) && false) = false ∧
       (run (init "wf" "d" "cfg") goodEnv ⟨false, false, []⟩ []).state.workdir
         = some "/data/Toil-wf") :=
  C9 (init "wf" "d" "cfg") goodEnv ⟨false, false, []⟩ [] (by decide) "/data/Toil-wf"

/-- C10: when the cleanup chown subprocess exits non-zero, the resulting
`CalledProcessError` propagates out of `run` and no directory is removed,
even when cleanup was requested; the chown command itself was executed. -/
theorem C10 (self : Wrapper) (env : Env) (args : Args) (pc : List String) (m : String)
    (hm : prepare_mount env.psOk env.mounts = .ok m)
    (hwd : env.workdirExists = false ∨ (self.resume && args.resume) = true)
    (hch : env.chownExit ≠ 0) :
    (run self env args pc).outcome = .error (.calledProcessError
      ["chown", "-R", toString env.statUid ++ ":" ++ toString env.statGid, m]) ∧
    Event.checkCall ["chown", "-R", toString env.statUid ++ ":" ++ toString env.statGid, m]
      ∈ (run self env args pc).trace ∧
    ∀ p, Event.rmtree p ∉ (run self env args pc).trace := by
  have hb : (env.chownExit != 0) = true := by simpa using hch
  have hwd' : env.workdirExists = false ∨ (self.resume = true ∧ args.resume = true) := by
    rcases hwd with h | h
    · exact Or.inl h
    · exact Or.inr (by simpa [Bool.and_eq_true] using h)
  refine ⟨?_, ?_, fun p => ?_⟩ <;>
  · unfold run create_workdir
    rw [hm]
    rcases hw : env.workdirExists with _ | _
    · simp [hw, hb] <;> (repeat' split) <;> simp_all
    · have hr : self.resume = true ∧ args.resume = true := by
        rcases hwd' with h | h
        · rw [hw] at h
          exact Bool.noConfusion h
        · exact h
      simp [hw, hr, hb] <;> (repeat' split) <;> simp_all

/-- C10, witness. -/
theorem C10_witness :
    (run (init "wf" "d" "cfg") { goodEnv with chownExit := 1 } ⟨false, false, []⟩ []).outcome
        = .error (.calledProcessError ["chown", "-R", "501:20", "/data"]) ∧
    Event.checkCall ["chown", "-R", "501:20", "/data"]
      ∈ (run (init "wf" "d" "cfg") { goodEnv with chownExit := 1 } ⟨false, false, []⟩ []).trace ∧
    ∀ p, Event.rmtree p ∉
      (run (init "wf" "d" "cfg") { goodEnv with chownExit := 1 } ⟨false, false, []⟩ []).trace :=
  C10 (init "wf" "d" "cfg") { goodEnv with chownExit := 1 } ⟨false, false, []⟩ [] "/data"
    (by decide) (Or.inl rfl) (by decide)

theorem work_mount_eq (mounts : List Mount) :
    ((mounts.filter isMirror).map (fun x => x.source)).filter (fun s => !containsSock s)
      = (mirrorNonSock mounts).map fun x => x.source := by
  induction mounts with
  | nil => rfl
  | cons a as ih =>
    by_cases h1 : isMirror a = true <;>
      by_cases h2 : containsSock a.source = true <;>
      simp_all [mirrorNonSock, isSock, List.filter_cons]

/-- C3: for every inspection result containing the socket mount (the
unique mount with `docker.sock` in its source, bind-mounted with equal
source and destination) plus exactly one mirrored non-socket mount, mount
resolution returns that mount's source; whenever the number of mirrored
non-socket mounts differs from one, it never returns a path. -/
theorem C3 (mounts : List Mount) :
    (∀ s w, mounts.filter isSock = [s] → isMirror s = true →
        mirrorNonSock mounts = [w] →
        prepare_mount true mounts = .ok w.source) ∧
    ((mirrorNonSock mounts).length ≠ 1 →
        ∀ p, prepare_mount true mounts ≠ .ok p) := by
  constructor
  · intro s w hs hmir hw
    by_cases hl : mounts.length = 2
    · rcases List.length_eq_two.mp hl with ⟨a, b, rfl⟩
      rcases ha : isSock a with _ | _ <;> rcases hb : isSock b with _ | _ <;>
        simp [ha, hb, List.filter_cons] at hs
      · -- only b is the socket mount
        rcases hma : isMirror a with _ | _ <;>
          simp [mirrorNonSock, List.filter_cons, ha, hb, hma] at hw
        rcases hs with ⟨rfl⟩
        rcases hw with ⟨rfl⟩
        simp [prepare_mount, require, List.filter_cons, ha, hb, hma, hmir]
      · -- only a is the socket mount
        rcases hmb : isMirror b with _ | _ <;>
          simp [mirrorNonSock, List.filter_cons, ha, hb, hmb] at hw
        rcases hs with ⟨rfl⟩
        rcases hw with ⟨rfl⟩
        simp [prepare_mount, require, List.filter_cons, ha, hb, hmb, hmir]
    · have hl2 : ¬(mounts.length = 2) := hl
      have hs1 : (mounts.filter isSock).length = 1 := by simp [hs]
      simp [prepare_mount, require, hs1, hl2, work_mount_eq, hw]
  · intro hn p hok
    rcases hsock : ((mounts.filter isSock).map isMirror).length == 1 with _ | _
    · have hsock' : ¬(mounts.filter isSock).length = 1 := by simpa using hsock
      simp [prepare_mount, require, hsock'] at hok
    have hs1 : (mounts.filter isSock).length = 1 := by simpa using hsock
    rcases hl2 : mounts.length == 2 with _ | _
    · have hl2' : ¬(mounts.length = 2) := by simpa using hl2
      simp [prepare_mount, require, hs1, hl2', work_mount_eq, hn] at hok
    · have hl : mounts.length = 2 := by simpa using hl2
      rcases List.length_eq_two.mp hl with ⟨a, b, rfl⟩
      rcases ha : isSock a with _ | _ <;> rcases hb : isSock b with _ | _ <;>
        rcases hma : isMirror a with _ | _ <;> rcases hmb : isMirror b with _ | _ <;>
        simp_all [prepare_mount, require, mirrorNonSock, List.filter_cons]

/-- C3, witness. -/
theorem C3_witness :
    prepare_mount true goodMounts
      = .ok (Mount.mk "/data" "/data").source :=
  (C3 goodMounts).1 ⟨"/var/run/docker.sock", "/var/run/docker.sock"⟩ ⟨"/data", "/data"⟩
    (by decide) (by decide) (by decide)

end ToilLib
